import Mathlib

/-!
Shallow embedding of the native detection engine of
`grtsinry43/Environment-Detector` (files `security_native.cpp` and
`anti_hook.cpp`) together with proofs about the embedded code.

Modelling conventions:
* Pseudo-files that the C++ code reads line by line (`/proc/self/status`,
  `/proc/net/tcp`, `/proc/self/maps`, ...) are modelled as
  `Option (List String)`: `none` when the stream cannot be opened, otherwise
  the list of lines `std::getline` would yield.
* Files read as a single buffer (`/proc/self/cmdline`, `/proc/cpuinfo`) are
  `Option String`.
* `stat` is modelled as a map from path to `Option Nat` (the `st_mode` of an
  existing file, `none` when `stat` fails), `access(path, W_OK) == 0` as a
  map from path to `Bool`, and `__system_property_get` as a map from
  property name to its value (the empty string when the property is unset,
  as bionic's implementation guarantees).
* C string scanning (`strstr`, `std::string::find`) is modelled by the
  executable infix scan `hasSub` over the character lists of the strings.
* `std::stoi` is modelled by `stoiL`, which returns `none` exactly when the
  C++ function would raise `std::invalid_argument` (no leading digits after
  optional whitespace and sign).  Functions that can raise this way are
  embedded in `Except Unit`.  The numeric result is kept as an unbounded
  `Int`; no claim under study depends on `int` overflow.
-/

/-- Model of a prefix test on character lists (`std::string::find(pfx) == 0`
reduced to its boolean meaning). -/
def isPref : List Char → List Char → Bool
  | [], _ => true
  | _ :: _, [] => false
  | a :: as, b :: bs => (a == b) && isPref as bs

/-- Model of an infix scan on character lists: does `n` occur contiguously in
the second list?  This is the meaning of `strstr(hay, n) != nullptr` and of
`hay.find(n) != std::string::npos`. -/
def hasInfixL (n : List Char) : List Char → Bool
  | [] => isPref n []
  | b :: bs => isPref n (b :: bs) || hasInfixL n bs

/-- `hasSub needle hay` models `strstr(hay, needle) != nullptr`. -/
def hasSub (needle hay : String) : Bool :=
  hasInfixL needle.data hay.data

/-- The whitespace characters skipped by `std::stoi` (C locale `isspace`). -/
def isSpaceC (c : Char) : Bool :=
  c == ' ' || c == '\t' || c == '\n' || c == '\r' || c == '\x0b' || c == '\x0c'

/-- Value of the leading decimal-digit run of a character list; `none` when
there is no leading digit (the `std::invalid_argument` case of `std::stoi`). -/
def takeDigits (cs : List Char) : Option Nat :=
  let ds := cs.takeWhile Char.isDigit
  if ds.isEmpty then none
  else some (ds.foldl (fun a c => a * 10 + (c.toNat - 48)) 0)

/-- Model of `std::stoi`: skip whitespace, read an optional sign, then a
non-empty digit run; `none` models the thrown `std::invalid_argument`. -/
def stoiL (cs : List Char) : Option Int :=
  match cs.dropWhile isSpaceC with
  | [] => none
  | c :: rest =>
    if c == '-' then (takeDigits rest).map fun n => -(n : Int)
    else if c == '+' then (takeDigits rest).map fun n => (n : Int)
    else (takeDigits (c :: rest)).map fun n => (n : Int)

/-- The application package identifier hard-coded in both C++ files. -/
def pkgNeedle : String := "com.grtsinry43.environmentdetector"

/-- Model of the `JNIEnv*` handed to a native entry point, restricted to the
observations `verifyCallerIntegrity` makes of it: the `JavaVM` that
`GetJavaVM` reports (`none` when the call does not return `JNI_OK`), whether
`FindClass("java/lang/Thread")` succeeds, whether the two method-id lookups
succeed, and the stack trace `Thread.currentThread().getStackTrace()` returns
(`none` models a null array, `some` the list of declaring class names). -/
structure JniEnv where
  vmOf : Option Nat
  threadClassOk : Bool
  methodsOk : Bool
  stackTrace : Option (List String)

/-- One snapshot of every system surface the native code reads, plus the
process-wide globals of `anti_hook.cpp` (`g_jvm`, modelled by `gJvm`) and the
identity of the `JNIEnv*` argument (`env`, `none` for a null pointer). -/
structure SysState where
  status : Option (List String) := none
  cmdline : Option String := none
  tcp4 : Option (List String) := none
  tcp6 : Option (List String) := none
  tasks : Option (List (String × Option String)) := none
  maps : Option (List String) := none
  cpuinfo : Option String := none
  fileStat : String → Option Nat := fun _ => none
  accessW : String → Bool := fun _ => false
  sysProp : String → String := fun _ => ""
  ldPreload : Option String := none
  openInstr : Option Nat := none
  ptraceTracemeFails : Bool := false
  soPath : Option String := none
  gJvm : Option Nat := none
  env : Option JniEnv := none

/-! ### anti_hook.cpp -/

/-- `verifyCallerIntegrity` from `anti_hook.cpp`.  Returns `false` on a null
env or unset `g_jvm`, on a `GetJavaVM` failure or VM mismatch, on a failed
`FindClass`/method-id lookup; when the stack trace is non-null it scans its
first 20 frames for the package name.  Note the faithful quirk: a null stack
trace skips the scan and the function returns `true`. -/
def verifyCallerIntegrity (gJvm : Option Nat) (env : Option JniEnv) : Bool :=
  match env, gJvm with
  | none, _ => false
  | some _, none => false
  | some e, some j =>
    match e.vmOf with
    | none => false
    | some v =>
      if v != j then false
      else if !e.threadClassOk then false
      else if !e.methodsOk then false
      else
        match e.stackTrace with
        | none => true
        | some frames => (frames.take 20).any fun c => hasSub pkgNeedle c

/-- `verifyProcessIntegrity` from `anti_hook.cpp`: the process name read from
`/proc/self/cmdline` must contain the package identifier. -/
def verifyProcessIntegrity (cmdline : Option String) : Bool :=
  match cmdline with
  | none => false
  | some pn => hasSub pkgNeedle pn

/-- `verifySoLoadPath` from `anti_hook.cpp`: the module path reported by
`dladdr` (`none` when `dladdr` fails or `dli_fname` is null) must contain
both `/data/app/` and the package identifier. -/
def verifySoLoadPath (soPath : Option String) : Bool :=
  match soPath with
  | none => false
  | some p => hasSub "/data/app/" p && hasSub pkgNeedle p

/-- `detectFunctionHook` from `anti_hook.cpp`: with non-null pointers and a
positive length, compare the first `len` bytes at the address against the
expected signature; `mem` is the byte content of process memory and
`expectedBytes` the caller-supplied signature array. -/
def detectFunctionHook (mem : Nat → Nat) (funcPtr : Option Nat)
    (expectedBytes : Option (Nat → Nat)) (len : Nat) : Bool :=
  match funcPtr, expectedBytes with
  | some p, some e =>
    if len = 0 then false
    else (List.range len).any fun i => decide (mem (p + i) ≠ e i)
  | _, _ => false

/-- The process-wide trust state of `anti_hook.cpp`: the globals `g_jvm`
and `g_context` (`none` before initialization). -/
structure TrustCtx where
  gJvm : Option Nat
  gContext : Option Nat
deriving DecidableEq

/-- `initAntiHook` from `anti_hook.cpp`: stores the VM of the calling env
into `g_jvm` and a fresh global reference to `context` into `g_context`,
unconditionally replacing whatever was stored before. -/
def initAntiHook (envVm ctx : Nat) (_t : TrustCtx) : TrustCtx :=
  ⟨some envVm, some ctx⟩

/-- The externally callable operations, for reasoning about call sequences:
the initialization entry point (with the VM and context it passes) and the
four check entry points. -/
inductive CallEv where
  | init (envVm ctx : Nat)
  | root
  | hook
  | debugger
  | emulator
deriving DecidableEq

/-- Is a call event the initialization entry point? -/
def isInitEv : CallEv → Bool
  | .init _ _ => true
  | _ => false

/-- Effect of one entry-point call on the trust globals: `initAntiHook`
writes them, the four check functions only read them. -/
def stepTC (t : TrustCtx) : CallEv → TrustCtx
  | .init v c => initAntiHook v c t
  | _ => t

/-- Effect of a sequence of entry-point calls on the trust globals. -/
def runTC (t : TrustCtx) (evs : List CallEv) : TrustCtx :=
  evs.foldl stepTC t

/-- `verifyNativeCall` from `anti_hook.cpp`: process identity, then module
load path, then caller integrity; any failure fails the whole gate. -/
def verifyNativeCall (s : SysState) : Bool :=
  verifyProcessIntegrity s.cmdline &&
    (verifySoLoadPath s.soPath && verifyCallerIntegrity s.gJvm s.env)

/-! ### security_native.cpp -/

/-- Does a status line start with `TracerPid:` (the `line.find("TracerPid:")
== 0` test)? -/
def lineIsTracer (l : String) : Bool :=
  isPref "TracerPid:".data l.data

/-- The line scan inside `checkTracerPid`: the first line starting with
`TracerPid:` is parsed with `std::stoi` on `line.substr(10)`; a non-zero
value yields `true`, zero breaks out of the loop and yields `false`, and a
value `std::stoi` cannot parse raises (`Except.error ()`).  Lines after the
first `TracerPid:` line are never examined. -/
def tracerScan : List String → Except Unit Bool
  | [] => .ok false
  | l :: rest =>
    if lineIsTracer l then
      match stoiL (l.data.drop 10) with
      | none => .error ()
      | some n => .ok (decide (n ≠ 0))
    else tracerScan rest

/-- `checkTracerPid` from `security_native.cpp`: `false` when
`/proc/self/status` cannot be opened, otherwise the `tracerScan` of its
lines. -/
def checkTracerPid : Option (List String) → Except Unit Bool
  | none => .ok false
  | some ls => tracerScan ls

/-- The `ptrace` requests `checkPtraceAttach` can issue, recorded so the
theorems can speak about whether a self-trace was attempted. -/
inductive PtraceEv where
  | traceme
  | detach
deriving DecidableEq

/-- `checkPtraceAttach` from `security_native.cpp`, with the list of
`ptrace` requests it issues as a second component: without prior
`checkTracerPid` evidence it returns `false` issuing no request; with
evidence it issues `PTRACE_TRACEME`, reports `true` exactly when that call
fails, and detaches again on success. -/
def checkPtraceAttach (s : SysState) : Except Unit (Bool × List PtraceEv) :=
  match checkTracerPid s.status with
  | .error e => .error e
  | .ok false => .ok (false, [])
  | .ok true =>
    if s.ptraceTracemeFails then .ok (true, [.traceme])
    else .ok (false, [.traceme, .detach])

/-- The hexadecimal Frida port fragments of `checkFridaPort`. -/
def fridaPorts : List String :=
  ["697A", "697B", "697C", "697D", "6992", "6993", "6995"]

/-- `checkFridaPort` from `security_native.cpp`: `false` when neither
`/proc/net/tcp` nor `/proc/net/tcp6` opens; otherwise any line of either
file containing any port fragment is evidence. -/
def checkFridaPort (tcp4 tcp6 : Option (List String)) : Bool :=
  match tcp4, tcp6 with
  | none, none => false
  | t4, t6 =>
    ((t4.getD []).any fun l => fridaPorts.any fun p => hasSub p l) ||
      ((t6.getD []).any fun l => fridaPorts.any fun p => hasSub p l)

/-- `checkFridaThreads` from `security_native.cpp`: enumerate
`/proc/self/task` (entries whose name starts with a dot are skipped, and an
entry whose `comm` file does not open contributes nothing) and match each
thread name against the Frida thread-name fragments. -/
def checkFridaThreads (tasks : Option (List (String × Option String))) : Bool :=
  match tasks with
  | none => false
  | some entries =>
    entries.any fun e =>
      if e.1.data.head? == some '.' then false
      else
        match e.2 with
        | none => false
        | some tn =>
          hasSub "gmain" tn || hasSub "gum-js-loop" tn ||
            hasSub "gdbus" tn || hasSub "pool-frida" tn

/-- The fixed Frida server paths of `checkFridaFiles`. -/
def fridaFiles : List String :=
  ["/data/local/tmp/frida-server", "/data/local/tmp/frida",
    "/data/local/tmp/re.frida.server"]

/-- `checkFridaFiles` from `security_native.cpp`: a successful `stat` of any
listed path is evidence. -/
def checkFridaFiles (fs : String → Option Nat) : Bool :=
  fridaFiles.any fun f => (fs f).isSome

/-- `checkFridaInMemory` from `security_native.cpp`: any `/proc/self/maps`
line containing `frida` or `linjector` is evidence. -/
def checkFridaInMemory (maps : Option (List String)) : Bool :=
  match maps with
  | none => false
  | some ls => ls.any fun l => hasSub "frida" l || hasSub "linjector" l

/-- `checkInlineHook` from `security_native.cpp`: `false` when
`dlsym(RTLD_DEFAULT, "open")` resolves to null; otherwise the 32-bit
instruction read at the resolved address is classified as hooked when it
matches the AArch64 unconditional-branch pattern
(`instr & 0xFC000000 == 0x14000000`) or the load-then-branch trampoline
pattern (`instr & 0xFF000000 == 0x58000000`). -/
def checkInlineHook (openInstr : Option Nat) : Bool :=
  match openInstr with
  | none => false
  | some instr =>
    decide (instr &&& 0xFC000000 = 0x14000000) ||
      decide (instr &&& 0xFF000000 = 0x58000000)

/-- The fixed su-binary paths of `checkSuBinary`. -/
def suPaths : List String :=
  ["/system/bin/su", "/system/xbin/su", "/sbin/su", "/su/bin/su",
    "/data/local/su", "/data/local/bin/su", "/data/local/xbin/su",
    "/vendor/bin/su"]

/-- `checkSuBinary` from `security_native.cpp`: a listed path is evidence
exactly when `stat` succeeds and the mode has the owner-execute bit
`S_IXUSR` (octal `0100`, i.e. 64) set. -/
def checkSuBinary (fs : String → Option Nat) : Bool :=
  suPaths.any fun p =>
    match fs p with
    | some m => decide (m &&& 64 ≠ 0)
    | none => false

/-- `checkRootProperties` from `security_native.cpp`: `ro.debuggable`
equal to `1`, `ro.secure` equal to `0`, or `test-keys` occurring in
`ro.build.tags` is evidence. -/
def checkRootProperties (prop : String → String) : Bool :=
  prop "ro.debuggable" == "1" || prop "ro.secure" == "0" ||
    hasSub "test-keys" (prop "ro.build.tags")

/-- The protected directories probed by `checkDangerousPermissions`. -/
def dangerousPaths : List String :=
  ["/system", "/system/bin", "/system/xbin"]

/-- `checkDangerousPermissions` from `security_native.cpp`: write access to
any protected system directory is evidence. -/
def checkDangerousPermissions (accessW : String → Bool) : Bool :=
  dangerousPaths.any accessW

/-- The library-name fragments of `checkLoadedLibraries`. -/
def suspiciousLibs : List String :=
  ["frida", "xposed", "substrate", "libriru", "lsposed"]

/-- `checkLoadedLibraries` from `security_native.cpp`: any
`/proc/self/maps` line containing any suspicious library fragment is
evidence. -/
def checkLoadedLibraries (maps : Option (List String)) : Bool :=
  match maps with
  | none => false
  | some ls => ls.any fun l => suspiciousLibs.any fun lib => hasSub lib l

/-- `detectFrida` from `security_native.cpp`: the OR of the five Frida
probes (each one is evaluated; the aggregate is their disjunction). -/
def detectFrida (s : SysState) : Bool :=
  checkFridaPort s.tcp4 s.tcp6 || checkFridaThreads s.tasks ||
    checkFridaFiles s.fileStat || checkFridaInMemory s.maps ||
    checkInlineHook s.openInstr

/-- `checkEmulatorCpu` from `security_native.cpp`: x86 vendor strings or
known virtual-CPU signatures in `/proc/cpuinfo` are evidence. -/
def checkEmulatorCpu (cpuinfo : Option String) : Bool :=
  match cpuinfo with
  | none => false
  | some c =>
    hasSub "Intel" c || hasSub "AMD" c || hasSub "GenuineIntel" c ||
      hasSub "goldfish" c || hasSub "ranchu" c || hasSub "vbox" c

/-- The fixed QEMU support paths of `checkQemuFiles`. -/
def qemuFiles : List String :=
  ["/dev/socket/qemud", "/dev/qemu_pipe",
    "/system/lib/libc_malloc_debug_qemu.so", "/sys/qemu_trace",
    "/system/bin/qemu-props"]

/-- `checkQemuFiles` from `security_native.cpp`: a successful `stat` of any
listed path is evidence. -/
def checkQemuFiles (fs : String → Option Nat) : Bool :=
  qemuFiles.any fun f => (fs f).isSome

/-- The tool-name fragments of `checkSuspiciousStrings`. -/
def suspiciousStrs : List String :=
  ["frida", "gdb", "gdbserver", "lldb", "ida", "substrate"]

/-- `checkSuspiciousStrings` from `security_native.cpp`: any tool-name
fragment occurring in the process command line is evidence. -/
def checkSuspiciousStrings (cmdline : Option String) : Bool :=
  match cmdline with
  | none => false
  | some c => suspiciousStrs.any fun n => hasSub n c

/-- `checkLdPreload` from `security_native.cpp`: a set, non-empty
`LD_PRELOAD` environment variable is evidence. -/
def checkLdPreload (lp : Option String) : Bool :=
  match lp with
  | none => false
  | some v => !v.data.isEmpty

/-- The JNI entry point `nativeCheckRoot`: a failed `verifyNativeCall` gate
returns `true` at once; otherwise the verdict is the OR of the three
root probes. -/
def nativeCheckRoot (s : SysState) : Bool :=
  if !verifyNativeCall s then true
  else
    checkSuBinary s.fileStat || checkRootProperties s.sysProp ||
      checkDangerousPermissions s.accessW

/-- The JNI entry point `nativeCheckHook`: the OR of the library scan, the
combined Frida detector, the command-line scan and the LD_PRELOAD probe. -/
def nativeCheckHook (s : SysState) : Bool :=
  checkLoadedLibraries s.maps || detectFrida s ||
    checkSuspiciousStrings s.cmdline || checkLdPreload s.ldPreload

/-- The JNI entry point `nativeCheckDebugger`: exactly `checkTracerPid` (the
`ptrace` and descriptor-count probes are commented out in the source); the
`Except` layer records that a malformed `TracerPid` value makes the C++
function raise instead of returning. -/
def nativeCheckDebugger (s : SysState) : Except Unit Bool :=
  checkTracerPid s.status

/-- The JNI entry point `nativeCheckEmulator`: the OR of the CPU signature
probe and the QEMU file probe. -/
def nativeCheckEmulator (s : SysState) : Bool :=
  checkEmulatorCpu s.cpuinfo || checkQemuFiles s.fileStat

/-! ### Spec-side predicates and concrete states -/

/-- The debugger verdict as §4.2 of the specification words it: the status
record is readable and reports a non-zero tracer process id on a
`TracerPid:` line. -/
def specTracerEvidence : Option (List String) → Prop
  | none => False
  | some ls =>
    ∃ l ∈ ls, lineIsTracer l = true ∧
      ∃ n : Int, stoiL (l.data.drop 10) = some n ∧ n ≠ 0

/-- A baseline state: every surface unreadable or empty, no initialization
performed, null `JNIEnv`. -/
def noEnv : SysState := {}

/-- A `JNIEnv` whose VM matches handle 1, whose class and method lookups
succeed, but whose `getStackTrace` call returns null. -/
def nullStackEnv : JniEnv :=
  { vmOf := some 1, threadClassOk := true, methodsOk := true,
    stackTrace := none }

/-- A state in which the process name and module path are the legitimate
ones, `g_jvm` matches the caller's VM, the stack trace is unobtainable, and
no root evidence exists anywhere. -/
def nullStackState : SysState :=
  { noEnv with
    cmdline := some "com.grtsinry43.environmentdetector",
    soPath := some "/data/app/com.grtsinry43.environmentdetector-1/lib/arm64/libsecurity.so",
    gJvm := some 1,
    env := some nullStackEnv }

/-- A state whose status record carries the malformed line `TracerPid:abc`. -/
def malformedStatusState : SysState :=
  { noEnv with status := some ["TracerPid:abc"] }

/-- A state whose status record reports tracer pid 7. -/
def tracedState : SysState :=
  { noEnv with status := some ["Name:\tapp", "TracerPid:\t7"] }

/-- The traced state with a failing `PTRACE_TRACEME`. -/
def tracedPtraceState : SysState :=
  { tracedState with ptraceTracemeFails := true }

/-- A concrete memory content for exercising `detectFunctionHook`. -/
def memA : Nat → Nat := fun _ => 0

/-- A concrete expected signature for exercising `detectFunctionHook`. -/
def sigA : Nat → Nat := fun _ => 1

/-! ### Theorems -/

/-- C1: whenever the caller-integrity gate `verifyNativeCall` fails,
`nativeCheckRoot` returns `true`, and it does so whatever the su-binary,
system-property and directory-permission surfaces contain — the
root-specific probes cannot influence the verdict. -/
theorem gateFail_forces_root_detection (s : SysState)
    (h : verifyNativeCall s = false) :
    nativeCheckRoot s = true ∧
      ∀ fs pr aw,
        nativeCheckRoot
          { s with fileStat := fs, sysProp := pr, accessW := aw } = true := by
  constructor
  · simp [nativeCheckRoot, h]
  · intro fs pr aw
    have h' : verifyNativeCall
        { s with fileStat := fs, sysProp := pr, accessW := aw } = false := h
    simp [nativeCheckRoot, h']

/-- Witness for the gate-failure theorem at the uninitialized state. -/
theorem gateFail_forces_root_detection_witness :
    verifyNativeCall noEnv = false ∧ nativeCheckRoot noEnv = true :=
  ⟨rfl, (gateFail_forces_root_detection noEnv rfl).1⟩

/-- C2 (code bug): in a state whose only anomaly is that the current
thread's stack trace cannot be obtained, `verifyCallerIntegrity` returns
`true`, the gate passes, and with no root evidence `nativeCheckRoot`
returns `false` — the unresolvable stack is not surfaced as a detection. -/
theorem nullStackTrace_gate_passes :
    nullStackEnv.stackTrace = none ∧
      verifyCallerIntegrity nullStackState.gJvm nullStackState.env = true ∧
      verifyNativeCall nullStackState = true ∧
      nativeCheckRoot nullStackState = false :=
  ⟨rfl, rfl, rfl, rfl⟩

/-- C3 (code bug): on a status record whose `TracerPid:` line carries no
numeric value, the embedded `nativeCheckDebugger` raises (the `std::stoi`
`std::invalid_argument` path) instead of returning a boolean. -/
theorem malformedTracerPid_raises :
    nativeCheckDebugger malformedStatusState = Except.error () := rfl

/-- C4 counterexample: after `initAntiHook` has stored handle 1, a second
initialization call stores handle 2 — the stored handle is overwritten. -/
theorem secondInit_overwrites_handle :
    (runTC ⟨none, none⟩ [CallEv.init 1 5]).gJvm = some 1 ∧
      (runTC ⟨none, none⟩ [CallEv.init 1 5, CallEv.init 2 7]).gJvm = some 2 ∧
      (runTC ⟨none, none⟩ [CallEv.init 1 5, CallEv.init 2 7]).gJvm ≠
        (runTC ⟨none, none⟩ [CallEv.init 1 5]).gJvm :=
  ⟨rfl, rfl, by decide⟩

/-- C4 as amended: non-initialization entry points never modify the trust
globals, while an initialization call always replaces them with the calling
env's VM and the new context reference (so a second initialization
silently overwrites the stored handle). -/
theorem trustContext_update_policy :
    (∀ (t : TrustCtx) (evs : List CallEv),
        (∀ e ∈ evs, isInitEv e = false) → runTC t evs = t) ∧
      ∀ (t : TrustCtx) (v c : Nat),
        stepTC t (CallEv.init v c) = ⟨some v, some c⟩ := by
  constructor
  · intro t evs
    induction evs generalizing t with
    | nil => intro _; rfl
    | cons e rest ih =>
      intro h
      have he : isInitEv e = false := h e (List.mem_cons_self e rest)
      have hr : ∀ x ∈ rest, isInitEv x = false := fun x hx =>
        h x (List.mem_cons_of_mem e hx)
      have hstep : stepTC t e = t := by
        cases e with
        | init v c => simp [isInitEv] at he
        | root => rfl
        | hook => rfl
        | debugger => rfl
        | emulator => rfl
      calc runTC t (e :: rest) = runTC (stepTC t e) rest := rfl
        _ = runTC t rest := by rw [hstep]
        _ = t := ih t hr
  · intro t v c
    rfl

/-- Witness for the amended trust-context policy on a concrete call
sequence without initialization events. -/
theorem trustContext_update_policy_witness :
    runTC ⟨some 1, some 5⟩ [CallEv.root, CallEv.debugger] = ⟨some 1, some 5⟩ :=
  trustContext_update_policy.1 ⟨some 1, some 5⟩ [CallEv.root, CallEv.debugger]
    (by decide)

/-- C6: the su-binary probe reports evidence exactly when some path of its
fixed list both exists (`stat` succeeds) and has the owner-execute
permission bit set in its mode. -/
theorem checkSuBinary_exec_iff (fs : String → Option Nat) :
    checkSuBinary fs = true ↔
      ∃ p ∈ suPaths, ∃ m, fs p = some m ∧ m &&& 64 ≠ 0 := by
  simp only [checkSuBinary, List.any_eq_true]
  constructor
  · rintro ⟨p, hp, hb⟩
    refine ⟨p, hp, ?_⟩
    cases h : fs p with
    | none => rw [h] at hb; simp at hb
    | some m =>
      rw [h] at hb
      simp only [decide_eq_true_eq] at hb
      exact ⟨m, rfl, hb⟩
  · rintro ⟨p, hp, m, hm, hb⟩
    refine ⟨p, hp, ?_⟩
    rw [hm]
    simpa using hb

/-- C7: the active-attach probe issues no `ptrace` request and reports no
evidence when the tracer-presence probe reports none; only when
tracer-presence evidence holds does it issue `PTRACE_TRACEME`, report the
failure of that call as evidence, and detach again on success. -/
theorem checkPtraceAttach_gated (s : SysState) :
    (checkTracerPid s.status = .ok false →
        checkPtraceAttach s = .ok (false, [])) ∧
      (checkTracerPid s.status = .ok true →
        checkPtraceAttach s =
          .ok (s.ptraceTracemeFails,
            if s.ptraceTracemeFails then [PtraceEv.traceme]
            else [PtraceEv.traceme, PtraceEv.detach])) := by
  constructor
  · intro h
    simp [checkPtraceAttach, h]
  · intro h
    unfold checkPtraceAttach
    rw [h]
    cases hf : s.ptraceTracemeFails <;> simp [hf]

/-- Witness for the gated active-attach probe: no tracer evidence in the
baseline state, and a tracer with a failing self-trace in the traced
state. -/
theorem checkPtraceAttach_gated_witness :
    checkPtraceAttach noEnv = .ok (false, []) ∧
      checkPtraceAttach tracedPtraceState = .ok (true, [PtraceEv.traceme]) :=
  ⟨(checkPtraceAttach_gated noEnv).1 rfl,
    (checkPtraceAttach_gated tracedPtraceState).2 rfl⟩

/-- C8: with a non-null address, non-null signature and positive length,
the byte-comparison primitive reports a hook exactly when one of the first
`len` bytes at the address differs from the corresponding signature byte. -/
theorem detectFunctionHook_iff (mem e : Nat → Nat) (p len : Nat)
    (h : 0 < len) :
    detectFunctionHook mem (some p) (some e) len = true ↔
      ∃ i < len, mem (p + i) ≠ e i := by
  have hz : len ≠ 0 := Nat.pos_iff_ne_zero.mp h
  simp [detectFunctionHook, hz, List.any_eq_true, List.mem_range]

/-- Witness for the byte-comparison primitive at length 1. -/
theorem detectFunctionHook_iff_witness :
    0 < 1 ∧
      (detectFunctionHook memA (some 0) (some sigA) 1 = true ↔
        ∃ i < 1, memA (0 + i) ≠ sigA i) :=
  ⟨Nat.one_pos, detectFunctionHook_iff memA sigA 0 1 Nat.one_pos⟩

/-- C9: a 32-bit encoding at the resolved `open` address is classified as
hooked exactly when it matches the unconditional-branch pattern or the
load-then-indirect-branch trampoline pattern. -/
theorem checkInlineHook_iff (instr : Nat) (hw : instr < 2 ^ 32) :
    checkInlineHook (some instr) = true ↔
      (instr &&& 0xFC000000 = 0x14000000 ∨
        instr &&& 0xFF000000 = 0x58000000) := by
  simp [checkInlineHook]

/-- Witness for the inline-hook classifier at an unconditional-branch
encoding. -/
theorem checkInlineHook_iff_witness :
    0x14000000 < 2 ^ 32 ∧
      (checkInlineHook (some 0x14000000) = true ↔
        (0x14000000 &&& 0xFC000000 = 0x14000000 ∨
          0x14000000 &&& 0xFF000000 = 0x58000000)) :=
  ⟨by decide, checkInlineHook_iff 0x14000000 (by decide)⟩

/-- C10: when no initialization ever happened (`g_jvm` unset), the gate
fails in every state, so `nativeCheckRoot` returns `true` even with no
root evidence; the other three entry points never read the trust globals,
so their verdicts are unchanged by `g_jvm`. -/
theorem uninitialized_gate_behavior (s : SysState) (h : s.gJvm = none) :
    nativeCheckRoot s = true ∧
      ∀ j, nativeCheckHook { s with gJvm := j } = nativeCheckHook s ∧
        nativeCheckDebugger { s with gJvm := j } = nativeCheckDebugger s ∧
        nativeCheckEmulator { s with gJvm := j } = nativeCheckEmulator s := by
  have hvci : verifyCallerIntegrity s.gJvm s.env = false := by
    rw [h]; cases s.env <;> rfl
  have hgate : verifyNativeCall s = false := by
    simp [verifyNativeCall, hvci]
  constructor
  · simp [nativeCheckRoot, hgate]
  · intro j
    exact ⟨rfl, rfl, rfl⟩

/-- Witness for the uninitialized-gate theorem at the baseline state. -/
theorem uninitialized_gate_behavior_witness :
    noEnv.gJvm = none ∧ nativeCheckRoot noEnv = true :=
  ⟨rfl, (uninitialized_gate_behavior noEnv rfl).1⟩

/-- The line scan of `checkTracerPid` reports `Except.ok true` exactly on a
non-zero-valued `TracerPid:` line, provided every `TracerPid:` line parses
and at most one such line occurs (as in every kernel status record). -/
theorem tracerScan_ok_true_iff (ls : List String)
    (hwf : ∀ l ∈ ls, lineIsTracer l = true →
      (stoiL (l.data.drop 10)).isSome = true)
    (hone : ls.countP lineIsTracer ≤ 1) :
    (tracerScan ls = .ok true ↔
      ∃ l ∈ ls, lineIsTracer l = true ∧
        ∃ n : Int, stoiL (l.data.drop 10) = some n ∧ n ≠ 0) := by
  induction ls with
  | nil => simp [tracerScan]
  | cons l rest ih =>
    cases hl : lineIsTracer l with
    | true =>
      have hs : (stoiL (l.data.drop 10)).isSome = true :=
        hwf l (List.mem_cons_self l rest) hl
      obtain ⟨n, hn⟩ := Option.isSome_iff_exists.mp hs
      have hscan : tracerScan (l :: rest) = .ok (decide (n ≠ 0)) := by
        simp [tracerScan, hl, hn]
      rw [hscan]
      constructor
      · intro hok
        have hn0 : n ≠ 0 := by
          by_contra h0
          rw [h0] at hok
          simp at hok
        exact ⟨l, List.mem_cons_self l rest, hl, n, hn, hn0⟩
      · rintro ⟨l', hmem, htr, m, hm, hm0⟩
        rcases List.mem_cons.mp hmem with heq | hmem'
        · subst heq
          rw [hn] at hm
          injection hm with hnm
          subst hnm
          simp [hm0]
        · exfalso
          have h1 : 0 < rest.countP lineIsTracer :=
            List.countP_pos_iff.mpr ⟨l', hmem', htr⟩
          have h2 : (l :: rest).countP lineIsTracer =
              rest.countP lineIsTracer + 1 :=
            List.countP_cons_of_pos _ _ hl
          omega
    | false =>
      have hscan : tracerScan (l :: rest) = tracerScan rest := by
        simp [tracerScan, hl]
      have hwf' : ∀ x ∈ rest, lineIsTracer x = true →
          (stoiL (x.data.drop 10)).isSome = true :=
        fun x hx => hwf x (List.mem_cons_of_mem l hx)
      have hone' : rest.countP lineIsTracer ≤ 1 := by
        have h2 : (l :: rest).countP lineIsTracer =
            rest.countP lineIsTracer := by
          rw [List.countP_cons_of_neg]
          simp [hl]
        omega
      rw [hscan, ih hwf' hone']
      constructor
      · rintro ⟨l', hmem, rest'⟩
        exact ⟨l', List.mem_cons_of_mem l hmem, rest'⟩
      · rintro ⟨l', hmem, htr, rest'⟩
        rcases List.mem_cons.mp hmem with heq | hmem'
        · subst heq
          rw [hl] at htr
          cases htr
        · exact ⟨l', hmem', htr, rest'⟩

/-- C5: the debugger entry point reads nothing but the status record, and
on a status record whose `TracerPid:` lines are well-formed and unique (as
kernel status records are) it answers `true` exactly when the record is
readable and reports a non-zero tracer process id. -/
theorem checkDebugger_tracer_iff (s : SysState)
    (hwf : ∀ ls, s.status = some ls → ∀ l ∈ ls, lineIsTracer l = true →
      (stoiL (l.data.drop 10)).isSome = true)
    (hone : ∀ ls, s.status = some ls → ls.countP lineIsTracer ≤ 1) :
    (nativeCheckDebugger s = .ok true ↔ specTracerEvidence s.status) ∧
      ∀ s' : SysState, s'.status = s.status →
        nativeCheckDebugger s' = nativeCheckDebugger s := by
  constructor
  · cases hs : s.status with
    | none =>
      simp [nativeCheckDebugger, checkTracerPid, hs, specTracerEvidence]
    | some ls =>
      have h1 := tracerScan_ok_true_iff ls (hwf ls hs) (hone ls hs)
      simpa [nativeCheckDebugger, checkTracerPid, hs, specTracerEvidence]
        using h1
  · intro s' h
    simp [nativeCheckDebugger, h]

/-- Witness for the debugger characterization at a state reporting tracer
pid 7. -/
theorem checkDebugger_tracer_iff_witness :
    nativeCheckDebugger tracedState = .ok true := by
  refine ((checkDebugger_tracer_iff tracedState ?_ ?_).1).mpr ?_
  · intro ls hls
    rw [show tracedState.status = some ["Name:\tapp", "TracerPid:\t7"]
      from rfl] at hls
    injection hls with h
    subst h
    decide
  · intro ls hls
    rw [show tracedState.status = some ["Name:\tapp", "TracerPid:\t7"]
      from rfl] at hls
    injection hls with h
    subst h
    decide
  · show ∃ l ∈ ["Name:\tapp", "TracerPid:\t7"], lineIsTracer l = true ∧
      ∃ n : Int, stoiL (l.data.drop 10) = some n ∧ n ≠ 0
    refine ⟨"TracerPid:\t7", ?_, ?_, 7, ?_, ?_⟩ <;> decide
